import Mathlib

/-!
Verification of the label-inference engine of The Cannon
(`src/TheCannon/infer_labels.py`), shallowly embedded over exact
rationals.  Arrays become `List ℚ`, matrices `List (List ℚ)`, and the
external SciPy optimizer `opt.curve_fit` becomes an abstract parameter
returning a `FitOutcome` (success, a `RuntimeError` for non-convergence,
or any other exception).  Python exceptions become `Except String`.
-/

namespace TheCannon

/-- Constant `LARGE = 200.` from infer_labels.py line 7. -/
def LARGE : ℚ := 200

/-- Constant `SMALL = 1. / LARGE` from infer_labels.py line 8. -/
def SMALL : ℚ := 1 / LARGE

/-- Embedding of `_get_lvec(labels)` (infer_labels.py lines 10-31):
`np.hstack((labels, np.outer(labels, labels)[np.triu_indices(nlabels)]))`.
`np.triu_indices(n)` enumerates the upper triangle (diagonal included) in
row-major order: `(i, j)` for `i` in `0..n-1`, `j` in `i..n-1`. -/
def _get_lvec (labels : List ℚ) : List ℚ :=
  labels ++ (List.range labels.length).flatMap (fun i =>
    ((List.range labels.length).drop i).map (fun j =>
      labels.getD i 0 * labels.getD j 0))

/-- Dot product of two equal-length vectors, `np.dot` on 1-D arguments. -/
def dot (a b : List ℚ) : ℚ := (List.zipWith (fun x y => x * y) a b).sum

/-- Embedding of `_func(coeffs, *labels)` (infer_labels.py lines 34-50):
`np.dot(coeffs, _get_lvec(labels))` where `coeffs` is the
`npixels x nfeatures` matrix, so the result is one model flux per pixel. -/
def _func (coeffs : List (List ℚ)) (labels : List ℚ) : List ℚ :=
  coeffs.map (fun row => dot row (_get_lvec labels))

/-- Outcome of one `opt.curve_fit` call: the fitted labels and covariance
matrix on success, `runtimeError` for the `RuntimeError` SciPy raises on
non-convergence, `otherError` for any other exception. -/
inductive FitOutcome where
  | success (labels : List ℚ) (covs : List (List ℚ))
  | runtimeError
  | otherError (msg : String)
deriving DecidableEq

/-- The abstract optimizer: receives the pivot-stripped coefficient
matrix, the pivot-relative flux, the per-pixel effective variances, and
the starting guess - exactly the data `opt.curve_fit` receives on line 95
(SciPy gets the standard deviation `sig`; we hand the abstract optimizer
its square so the driver stays over `ℚ`, which is immaterial because the
optimizer is opaque). -/
def Optimizer : Type :=
  List (List ℚ) → List ℚ → List ℚ → List ℚ → FitOutcome

/-- The model tuple as read on lines 71-74: `coeffs`, `scatters`,
`pivots` (`chisqs` is read but never used in the loop). -/
structure CannonModel where
  coeffs : List (List ℚ)
  scatters : List ℚ
  pivots : List ℚ

/-- The dataset fields `_infer_labels` touches: `tr_label.shape[1]`
(only read), `test_flux`, `test_ivar`, and the label-value table that
`set_test_label_vals` overwrites (a plain attribute assignment, as the
sibling setters in `src/Code/Version1.2/dataset.py` lines 51-64 show). -/
structure Dataset where
  tr_label_cols : Nat
  test_flux : List (List ℚ)
  test_ivar : List (List ℚ)
  test_label_vals : List (List ℚ)
deriving DecidableEq

/-- The index pairs `np.triu_indices(n)` enumerates, written from the
spec's words: every `(i, j)` with `i ≤ j < n`, row-major, diagonal
included. -/
def upperTriPairs (n : Nat) : List (Nat × Nat) :=
  (List.range n).flatMap (fun i => ((List.range n).drop i).map (fun j => (i, j)))

/-- Lexicographic order on index pairs: the order in which a row-major
upper-triangle traversal emits them. -/
def pairLex (p q : Nat × Nat) : Prop :=
  p.1 < q.1 ∨ (p.1 = q.1 ∧ p.2 < q.2)

/-- The per-pixel effective variance of lines 90-92 (`sig` squared):
`LARGE^2` where `ivar == 0`, else `1/ivar + scatter^2`. -/
def sigSqPix (iv s : ℚ) : ℚ :=
  if iv = 0 then LARGE ^ 2 else 1 / iv + s ^ 2

/-- Column 0 of the coefficient matrix, `coeffs_all[:,0]` (line 89). -/
def pivotCol (coeffs_all : List (List ℚ)) : List ℚ :=
  coeffs_all.map (fun row => row.headD 0)

/-- NumPy elementwise addition with length-1 broadcasting: equal lengths
zip, a length-1 operand is stretched, anything else raises `ValueError`. -/
def npAdd (a b : List ℚ) : Except String (List ℚ) :=
  if a.length = b.length then .ok (List.zipWith (fun x y => x + y) a b)
  else if b.length = 1 then .ok (a.map (fun x => x + b.headD 0))
  else if a.length = 1 then .ok (b.map (fun y => a.headD 0 + y))
  else .error "operands could not be broadcast together"

/-- NumPy elementwise subtraction with length-1 broadcasting. -/
def npSub (a b : List ℚ) : Except String (List ℚ) :=
  if a.length = b.length then .ok (List.zipWith (fun x y => x - y) a b)
  else if b.length = 1 then .ok (a.map (fun x => x - b.headD 0))
  else if a.length = 1 then .ok (b.map (fun y => a.headD 0 - y))
  else .error "operands could not be broadcast together"

/-- Lines 90-92:
`sig = np.ones(len(flux)) * LARGE; bad = ivar == 0;`
`sig[~bad] = np.sqrt(1./ivar[~bad] + scatters[~bad]**2)`.
Stored squared (the effective variance); the boolean-mask assignments
require `len(ivar) = len(flux)` and `len(scatters) = len(ivar)`, else
NumPy raises an `IndexError`. -/
def computeSigSq (flux ivar scatters : List ℚ) : Except String (List ℚ) :=
  if ivar.length = flux.length ∧ scatters.length = ivar.length then
    .ok (List.zipWith sigSqPix ivar scatters)
  else .error "boolean index did not match indexed array"

/-- The effective per-pixel standard deviation of lines 90-92, over ℝ:
the sentinel `LARGE` where `ivar == 0`, else `sqrt(1/ivar + scatter^2)`.
(`computeSigSq` is its pixelwise square on the physical domain.) -/
noncomputable def effSig (ivar scatter : ℝ) : ℝ :=
  if ivar = 0 then (LARGE : ℝ) else Real.sqrt (1 / ivar + scatter ^ 2)

/-- Sentinel labels `np.zeros(starting_guess.shape) - 9999.` (line 101). -/
def sentinelLabels (guess : List ℚ) : List ℚ :=
  List.replicate guess.length (-9999)

/-- Sentinel covariance `np.zeros((len(starting_guess), len(starting_guess))) - 9999.`
(line 102). -/
def sentinelCovs (guess : List ℚ) : List (List ℚ) :=
  List.replicate guess.length (List.replicate guess.length (-9999))

/-- The `try/except RuntimeError` block of lines 94-102: a convergence
failure is converted to the sentinel labels and covariance, any other
exception propagates. -/
def fitStar (optimizer : Optimizer) (coeffs : List (List ℚ))
    (flux_piv sigSq starting_guess : List ℚ) :
    Except String (List ℚ × List (List ℚ)) :=
  match optimizer coeffs flux_piv sigSq starting_guess with
  | .success labels covs => .ok (labels, covs)
  | .runtimeError => .ok (sentinelLabels starting_guess, sentinelCovs starting_guess)
  | .otherError msg => .error msg

/-- Per-pixel chi-square contributions of line 103:
`(flux_piv - _func(coeffs, *labels))**2 * ivar / (1 + ivar * scatters**2)`. -/
def chi2terms (coeffs : List (List ℚ)) (flux_piv ivar scatters labels : List ℚ) :
    List ℚ :=
  List.zipWith (fun fpm ivs => (fpm.1 - fpm.2) ^ 2 * ivs.1 / (1 + ivs.1 * ivs.2 ^ 2))
    (flux_piv.zip (_func coeffs labels)) (ivar.zip scatters)

/-- Matrix diagonal, `covs.diagonal()` (line 106). -/
def diagonal (m : List (List ℚ)) : List ℚ :=
  (List.range m.length).map (fun i => (m.getD i []).getD i 0)

/-- One star's slice of the aggregate arrays: `labels_all[jj,:]`,
`errs_all[jj,:]`, `chisq_all[jj]`. -/
structure StarResult where
  labels : List ℚ
  errs : List ℚ
  chisq : ℚ
deriving DecidableEq

/-- The body of the per-star loop (lines 87-106): pivot-subtract the
flux against `coeffs_all[:,0]`, build the weights, drop the offset
column (`np.delete(coeffs_all, 0, axis=1)`), run the guarded fit,
compute the chi-square at whatever labels came out (fitted or sentinel),
add the model pivots back, and record the covariance diagonal. -/
def solveStar (optimizer : Optimizer) (coeffs_all : List (List ℚ))
    (scatters pivots starting_guess flux ivar : List ℚ) :
    Except String StarResult :=
  match npSub flux (pivotCol coeffs_all) with
  | .error e => .error e
  | .ok flux_piv =>
    match computeSigSq flux ivar scatters with
    | .error e => .error e
    | .ok sigSq =>
      match fitStar optimizer (coeffs_all.map List.tail) flux_piv sigSq
          starting_guess with
      | .error e => .error e
      | .ok fitted =>
        match npAdd fitted.1 pivots with
        | .error e => .error e
        | .ok stored =>
          .ok ⟨stored, diagonal fitted.2,
            (chi2terms (coeffs_all.map List.tail) flux_piv ivar scatters
              fitted.1).sum⟩

/-- The `for jj in range(nstars)` loop (lines 87-106): `nstars` comes
from `fluxes.shape[0]`, and `ivars[jj,:]` raises an `IndexError` when
`test_ivar` has fewer rows. -/
def runLoop (optimizer : Optimizer) (coeffs_all : List (List ℚ))
    (scatters pivots starting_guess : List ℚ) :
    List (List ℚ) → List (List ℚ) → Except String (List StarResult)
  | [], _ => .ok []
  | _ :: _, [] => .error "index out of bounds"
  | flux :: fs, ivar :: ivs =>
    match solveStar optimizer coeffs_all scatters pivots starting_guess flux ivar with
    | .error e => .error e
    | .ok r =>
      match runLoop optimizer coeffs_all scatters pivots starting_guess fs ivs with
      | .error e => .error e
      | .ok rest => .ok (r :: rest)

/-- Embedding of `_infer_labels(model, dataset, starting_guess)`
(lines 53-109): run the loop over all stars, then - and only then -
overwrite the dataset's label-value table via `set_test_label_vals`
(a plain attribute assignment) and return `(errs_all, chisq_all)`. -/
def _infer_labels (optimizer : Optimizer) (model : CannonModel)
    (dataset : Dataset) (starting_guess : List ℚ) :
    Except String (Dataset × List (List ℚ) × List ℚ) :=
  match runLoop optimizer model.coeffs model.scatters model.pivots
      starting_guess dataset.test_flux dataset.test_ivar with
  | .error e => .error e
  | .ok results =>
    .ok ({ dataset with test_label_vals := results.map StarResult.labels },
      results.map StarResult.errs, results.map StarResult.chisq)

/-- An optimizer whose every call raises the convergence `RuntimeError`
(a degenerate model that never converges). -/
def failOpt : Optimizer := fun _ _ _ _ => .runtimeError

/-- An optimizer that converges at once, returning the starting guess
with an all-zero covariance matrix. -/
def echoOpt : Optimizer := fun _ _ _ guess =>
  .success guess (List.replicate guess.length (List.replicate guess.length 0))

/-- An optimizer raising a non-convergence exception (e.g. a TypeError)
when the pivot-relative flux is `[2]`, and converging otherwise. -/
def mixedOpt : Optimizer := fun _ flux_piv _ guess =>
  if flux_piv = [2] then .otherError "boom"
  else .success guess (List.replicate guess.length (List.replicate guess.length 0))

/-! ## Helper lemmas -/

lemma drop_range (n i : Nat) (h : i ≤ n) :
    (List.range n).drop i = List.range' i (n - i) := by
  have hsplit : List.range' 0 i ++ List.range' (0 + i) (n - i) = List.range' 0 n := by
    rw [List.range'_append_1]
    congr 1
    omega
  rw [List.range_eq_range', ← hsplit]
  have hlen : (List.range' 0 i).length = i := List.length_range' ..
  calc (List.range' 0 i ++ List.range' (0 + i) (n - i)).drop i
      = (List.range' 0 i ++ List.range' (0 + i) (n - i)).drop
          (List.range' 0 i).length := by rw [hlen]
    _ = List.range' (0 + i) (n - i) := List.drop_left ..
    _ = List.range' i (n - i) := by rw [Nat.zero_add]

lemma mem_drop_range (n i j : Nat) (hi : i < n) :
    j ∈ (List.range n).drop i ↔ i ≤ j ∧ j < n := by
  rw [drop_range n i (le_of_lt hi), List.mem_range'_1]
  omega

lemma sum_range_sub_mul_two (n : Nat) :
    (∑ i in Finset.range n, (n - i)) * 2 = n * (n + 1) := by
  have h : ∑ i in Finset.range n, (n - i) = ∑ i in Finset.range n, (i + 1) := by
    rw [← Finset.sum_range_reflect]
    apply Finset.sum_congr rfl
    intro i hi
    have : i < n := Finset.mem_range.mp hi
    omega
  rw [h, Finset.sum_add_distrib, Finset.sum_const, Finset.card_range, smul_eq_mul,
    mul_one, add_mul, Finset.sum_range_id_mul_two]
  cases n with
  | zero => rfl
  | succ m => simp [Nat.succ_sub_one]; ring

lemma upperTriPairs_length (n : Nat) :
    (upperTriPairs n).length = n * (n + 1) / 2 := by
  have h1 : (upperTriPairs n).length = ∑ i in Finset.range n, (n - i) := by
    rw [upperTriPairs, List.length_flatMap]
    simp only [Function.comp_def, List.length_map, List.length_drop, List.length_range]
    rfl
  have h2 := sum_range_sub_mul_two n
  omega

lemma mem_upperTriPairs (n i j : Nat) :
    (i, j) ∈ upperTriPairs n ↔ i ≤ j ∧ j < n := by
  simp only [upperTriPairs, List.mem_flatMap, List.mem_map, List.mem_range]
  constructor
  · rintro ⟨a, ha, b, hb, hab⟩
    obtain ⟨rfl, rfl⟩ := Prod.ext_iff.mp hab
    exact (mem_drop_range _ _ _ ha).mp hb
  · rintro ⟨hij, hj⟩
    exact ⟨i, lt_of_le_of_lt hij hj, j,
      (mem_drop_range n i j (lt_of_le_of_lt hij hj)).mpr ⟨hij, hj⟩, rfl⟩

lemma upperTriPairs_sorted (n : Nat) :
    (upperTriPairs n).Pairwise pairLex := by
  rw [upperTriPairs]
  apply List.pairwise_flatMap.mpr
  refine ⟨?_, ?_⟩
  · intro a _
    apply List.Pairwise.map
    · intro x y hxy
      exact Or.inr ⟨rfl, hxy⟩
    · exact List.Pairwise.drop (List.pairwise_lt_range n)
  · have hlt : List.Pairwise (fun a b => a < b) (List.range n) :=
      List.pairwise_lt_range n
    apply List.Pairwise.imp_of_mem ?_ hlt
    intro a b _ _ hab
    intro x hx y hy
    obtain ⟨xj, _, rfl⟩ := List.mem_map.mp hx
    obtain ⟨yj, _, rfl⟩ := List.mem_map.mp hy
    exact Or.inl hab

lemma get_lvec_decomp (labels : List ℚ) :
    _get_lvec labels = labels ++ (upperTriPairs labels.length).map
      (fun ij => labels.getD ij.1 0 * labels.getD ij.2 0) := by
  rw [_get_lvec, upperTriPairs, List.map_flatMap]
  refine congrArg (labels ++ ·) (congrArg _ (funext fun i => ?_))
  rw [List.map_map]
  rfl

lemma diagonal_sentinelCovs (guess : List ℚ) :
    diagonal (sentinelCovs guess) = List.replicate guess.length (-9999) := by
  rw [diagonal, sentinelCovs, List.length_replicate]
  refine List.eq_replicate_iff.mpr ⟨by rw [List.length_map, List.length_range], ?_⟩
  intro b hb
  obtain ⟨i, hi, rfl⟩ := List.mem_map.mp hb
  have hil : i < guess.length := List.mem_range.mp hi
  simp [List.getD_eq_getElem?_getD, List.getElem?_replicate, hil]

lemma runLoop_ok_get (optimizer : Optimizer) (coeffs_all : List (List ℚ))
    (scatters pivots starting_guess : List ℚ) (fs ivs : List (List ℚ))
    (rs : List StarResult)
    (h : runLoop optimizer coeffs_all scatters pivots starting_guess fs ivs
      = .ok rs) :
    rs.length = fs.length ∧
    ∀ (jj : Nat) (flux : List ℚ), fs[jj]? = some flux →
      ∃ (ivar : List ℚ) (r : StarResult), ivs[jj]? = some ivar ∧
      solveStar optimizer coeffs_all scatters pivots starting_guess flux ivar
        = .ok r ∧
      rs[jj]? = some r := by
  induction fs generalizing ivs rs with
  | nil =>
    rw [runLoop] at h
    obtain rfl : ([] : List StarResult) = rs := (Except.ok.injEq _ _).mp h
    refine ⟨rfl, ?_⟩
    intro jj flux hj
    simp at hj
  | cons flux0 fs ih =>
    cases ivs with
    | nil => simp [runLoop] at h
    | cons ivar0 ivs =>
      rw [runLoop] at h
      cases hs : solveStar optimizer coeffs_all scatters pivots starting_guess
          flux0 ivar0 with
      | error e => rw [hs] at h; simp at h
      | ok r0 =>
        rw [hs] at h
        dsimp only at h
        cases hrest : runLoop optimizer coeffs_all scatters pivots starting_guess
            fs ivs with
        | error e => rw [hrest] at h; simp at h
        | ok rest =>
          rw [hrest] at h
          dsimp only at h
          obtain rfl : r0 :: rest = rs := (Except.ok.injEq _ _).mp h
          obtain ⟨ihlen, ihget⟩ := ih ivs rest hrest
          refine ⟨by simp [ihlen], ?_⟩
          intro jj flux hj
          cases jj with
          | zero =>
            obtain rfl : flux0 = flux := by simpa using hj
            exact ⟨ivar0, r0, List.getElem?_cons_zero, hs, List.getElem?_cons_zero⟩
          | succ k =>
            rw [List.getElem?_cons_succ] at hj
            obtain ⟨ivar, r, h1, h2, h3⟩ := ihget k flux hj
            exact ⟨ivar, r, by simpa using h1, h2, by simpa using h3⟩

lemma runLoop_error_of (optimizer : Optimizer) (coeffs_all : List (List ℚ))
    (scatters pivots starting_guess : List ℚ) (jj : Nat) (fs ivs : List (List ℚ))
    (flux ivar : List ℚ) (msg : String)
    (hf : fs[jj]? = some flux) (hv : ivs[jj]? = some ivar)
    (hprev : ∀ k : Nat, k < jj → ∃ f i r, fs[k]? = some f ∧ ivs[k]? = some i ∧
      solveStar optimizer coeffs_all scatters pivots starting_guess f i = .ok r)
    (hfail : solveStar optimizer coeffs_all scatters pivots starting_guess flux ivar
      = .error msg) :
    runLoop optimizer coeffs_all scatters pivots starting_guess fs ivs
      = .error msg := by
  induction jj generalizing fs ivs with
  | zero =>
    cases fs with
    | nil => simp at hf
    | cons f0 fs =>
      cases ivs with
      | nil => simp at hv
      | cons i0 ivs =>
        obtain rfl : f0 = flux := by simpa using hf
        obtain rfl : i0 = ivar := by simpa using hv
        rw [runLoop, hfail]
  | succ jj ih =>
    cases fs with
    | nil => simp at hf
    | cons f0 fs =>
      cases ivs with
      | nil => simp at hv
      | cons i0 ivs =>
        obtain ⟨f, i, r, hf0, hi0, hsr⟩ := hprev 0 (Nat.succ_pos jj)
        obtain rfl : f0 = f := by simpa using hf0
        obtain rfl : i0 = i := by simpa using hi0
        rw [runLoop, hsr]
        dsimp only
        rw [ih fs ivs (by simpa using hf) (by simpa using hv) ?_ ]
        intro k hk
        obtain ⟨f2, i2, r2, h1, h2, h3⟩ := hprev (k + 1) (by omega)
        exact ⟨f2, i2, r2, by simpa using h1, by simpa using h2, h3⟩

lemma npSub_ok (flux : List ℚ) (coeffs_all : List (List ℚ))
    (hflux : flux.length = coeffs_all.length) :
    npSub flux (pivotCol coeffs_all) =
      .ok (List.zipWith (fun x y => x - y) flux (pivotCol coeffs_all)) := by
  rw [npSub, if_pos]
  rw [pivotCol, List.length_map]
  exact hflux

lemma computeSigSq_ok (flux ivar scatters : List ℚ)
    (hiv : ivar.length = flux.length) (hsc : scatters.length = ivar.length) :
    computeSigSq flux ivar scatters = .ok (List.zipWith sigSqPix ivar scatters) := by
  rw [computeSigSq, if_pos ⟨hiv, hsc⟩]

lemma solveStar_success (optimizer : Optimizer) (coeffs_all : List (List ℚ))
    (scatters pivots starting_guess flux ivar labels : List ℚ)
    (covs : List (List ℚ))
    (hflux : flux.length = coeffs_all.length) (hiv : ivar.length = flux.length)
    (hsc : scatters.length = ivar.length) (hlab : labels.length = pivots.length)
    (hopt : optimizer (coeffs_all.map List.tail)
      (List.zipWith (fun x y => x - y) flux (pivotCol coeffs_all))
      (List.zipWith sigSqPix ivar scatters) starting_guess = .success labels covs) :
    solveStar optimizer coeffs_all scatters pivots starting_guess flux ivar =
      .ok ⟨List.zipWith (fun x y => x + y) labels pivots, diagonal covs,
        (chi2terms (coeffs_all.map List.tail)
          (List.zipWith (fun x y => x - y) flux (pivotCol coeffs_all))
          ivar scatters labels).sum⟩ := by
  have hfit : fitStar optimizer (coeffs_all.map List.tail)
      (List.zipWith (fun x y => x - y) flux (pivotCol coeffs_all))
      (List.zipWith sigSqPix ivar scatters) starting_guess = .ok (labels, covs) := by
    rw [fitStar, hopt]
  have hadd : npAdd labels pivots =
      .ok (List.zipWith (fun x y => x + y) labels pivots) := by
    rw [npAdd, if_pos hlab]
  rw [solveStar, npSub_ok flux coeffs_all hflux, computeSigSq_ok flux ivar scatters hiv hsc]
  dsimp only
  rw [hfit]
  dsimp only
  rw [hadd]

lemma solveStar_runtimeError (optimizer : Optimizer) (coeffs_all : List (List ℚ))
    (scatters pivots starting_guess flux ivar : List ℚ)
    (hflux : flux.length = coeffs_all.length) (hiv : ivar.length = flux.length)
    (hsc : scatters.length = ivar.length)
    (hpiv : pivots.length = starting_guess.length)
    (hrt : optimizer (coeffs_all.map List.tail)
      (List.zipWith (fun x y => x - y) flux (pivotCol coeffs_all))
      (List.zipWith sigSqPix ivar scatters) starting_guess = .runtimeError) :
    solveStar optimizer coeffs_all scatters pivots starting_guess flux ivar =
      .ok ⟨List.zipWith (fun x y => x + y) (sentinelLabels starting_guess) pivots,
        List.replicate starting_guess.length (-9999),
        (chi2terms (coeffs_all.map List.tail)
          (List.zipWith (fun x y => x - y) flux (pivotCol coeffs_all))
          ivar scatters (sentinelLabels starting_guess)).sum⟩ := by
  have hfit : fitStar optimizer (coeffs_all.map List.tail)
      (List.zipWith (fun x y => x - y) flux (pivotCol coeffs_all))
      (List.zipWith sigSqPix ivar scatters) starting_guess =
      .ok (sentinelLabels starting_guess, sentinelCovs starting_guess) := by
    rw [fitStar, hrt]
  have hadd : npAdd (sentinelLabels starting_guess) pivots =
      .ok (List.zipWith (fun x y => x + y) (sentinelLabels starting_guess) pivots) := by
    rw [npAdd, if_pos]
    rw [sentinelLabels, List.length_replicate]
    omega
  rw [solveStar, npSub_ok flux coeffs_all hflux, computeSigSq_ok flux ivar scatters hiv hsc]
  dsimp only
  rw [hfit]
  dsimp only
  rw [hadd]
  dsimp only
  rw [diagonal_sentinelCovs]

lemma solveStar_otherError (optimizer : Optimizer) (coeffs_all : List (List ℚ))
    (scatters pivots starting_guess flux ivar : List ℚ) (msg : String)
    (hflux : flux.length = coeffs_all.length) (hiv : ivar.length = flux.length)
    (hsc : scatters.length = ivar.length)
    (hraise : optimizer (coeffs_all.map List.tail)
      (List.zipWith (fun x y => x - y) flux (pivotCol coeffs_all))
      (List.zipWith sigSqPix ivar scatters) starting_guess = .otherError msg) :
    solveStar optimizer coeffs_all scatters pivots starting_guess flux ivar =
      .error msg := by
  have hfit : fitStar optimizer (coeffs_all.map List.tail)
      (List.zipWith (fun x y => x - y) flux (pivotCol coeffs_all))
      (List.zipWith sigSqPix ivar scatters) starting_guess = .error msg := by
    rw [fitStar, hraise]
  rw [solveStar, npSub_ok flux coeffs_all hflux, computeSigSq_ok flux ivar scatters hiv hsc]
  dsimp only
  rw [hfit]

lemma runLoop_ok_of_wellformed (optimizer : Optimizer) (coeffs_all : List (List ℚ))
    (scatters pivots starting_guess : List ℚ) (fs ivs : List (List ℚ))
    (hlen : ivs.length = fs.length)
    (hf : ∀ flux ∈ fs, flux.length = coeffs_all.length)
    (hi : ∀ ivar ∈ ivs, ivar.length = coeffs_all.length)
    (hsc : scatters.length = coeffs_all.length)
    (hpiv : pivots.length = starting_guess.length)
    (hnoraise : ∀ c f s g msg, optimizer c f s g ≠ .otherError msg)
    (hlenopt : ∀ c f s g l cv, optimizer c f s g = .success l cv →
      l.length = g.length) :
    ∃ rs, runLoop optimizer coeffs_all scatters pivots starting_guess fs ivs
      = .ok rs := by
  induction fs generalizing ivs with
  | nil => exact ⟨[], by rw [runLoop]⟩
  | cons flux0 fs ih =>
    cases ivs with
    | nil => simp at hlen
    | cons ivar0 ivs =>
      have hflux0 : flux0.length = coeffs_all.length := hf flux0 (List.mem_cons_self flux0 fs)
      have hivar0 : ivar0.length = flux0.length := by
        rw [hflux0]; exact hi ivar0 (List.mem_cons_self ivar0 ivs)
      have hsc0 : scatters.length = ivar0.length := by rw [hivar0, hflux0]; exact hsc
      have hsolve : ∃ r, solveStar optimizer coeffs_all scatters pivots
          starting_guess flux0 ivar0 = .ok r := by
        cases houtcome : optimizer (coeffs_all.map List.tail)
            (List.zipWith (fun x y => x - y) flux0 (pivotCol coeffs_all))
            (List.zipWith sigSqPix ivar0 scatters) starting_guess with
        | success l cv =>
          have hlab : l.length = pivots.length := by
            rw [hlenopt _ _ _ _ _ _ houtcome, hpiv]
          exact ⟨_, solveStar_success optimizer coeffs_all scatters pivots
            starting_guess flux0 ivar0 l cv hflux0 hivar0 hsc0 hlab houtcome⟩
        | runtimeError =>
          exact ⟨_, solveStar_runtimeError optimizer coeffs_all scatters pivots
            starting_guess flux0 ivar0 hflux0 hivar0 hsc0 hpiv houtcome⟩
        | otherError msg => exact absurd houtcome (hnoraise _ _ _ _ msg)
      obtain ⟨r0, hr0⟩ := hsolve
      obtain ⟨rest, hrest⟩ := ih ivs (by simpa using hlen)
        (fun fl hfl => hf fl (List.mem_cons_of_mem _ hfl))
        (fun iv hiv2 => hi iv (List.mem_cons_of_mem _ hiv2))
      exact ⟨r0 :: rest, by rw [runLoop, hr0]; dsimp only; rw [hrest]⟩

lemma sum_zipWith_getD {α β : Type} (g : α → β → ℚ) (u : List α) (v : List β)
    (n : Nat) (hu : u.length = n) (hv : v.length = n) (du : α) (dv : β) :
    (List.zipWith g u v).sum =
      ∑ p in Finset.range n, g (u.getD p du) (v.getD p dv) := by
  induction u generalizing v n with
  | nil =>
    subst hu
    simp
  | cons x u ih =>
    cases v with
    | nil => simp at hu hv; omega
    | cons y v =>
      subst hu
      rw [List.zipWith_cons_cons, List.sum_cons, List.length_cons,
        Finset.sum_range_succ']
      have hv2 : v.length = u.length := by simpa using hv
      rw [ih v u.length rfl hv2]
      simp only [List.getD_cons_succ, List.getD_cons_zero]
      exact add_comm ..

lemma getD_zip {α β : Type} (u : List α) (v : List β) (p : Nat)
    (hp : p < u.length) (hq : p < v.length) (du : α) (dv : β) :
    (u.zip v).getD p (du, dv) = (u.getD p du, v.getD p dv) := by
  have h : p < (u.zip v).length := by rw [List.length_zip]; omega
  rw [List.getD_eq_getElem?_getD, List.getElem?_eq_getElem h, List.getElem_zip,
    List.getD_eq_getElem?_getD, List.getElem?_eq_getElem hp,
    List.getD_eq_getElem?_getD, List.getElem?_eq_getElem hq]
  rfl

lemma chi2terms_sum (coeffs : List (List ℚ)) (flux_piv ivar scatters labels : List ℚ)
    (n : Nat) (h1 : flux_piv.length = n) (h2 : coeffs.length = n)
    (h3 : ivar.length = n) (h4 : scatters.length = n) :
    (chi2terms coeffs flux_piv ivar scatters labels).sum =
      ∑ p in Finset.range n,
        (flux_piv.getD p 0 - (_func coeffs labels).getD p 0) ^ 2 * ivar.getD p 0 /
          (1 + ivar.getD p 0 * (scatters.getD p 0) ^ 2) := by
  have hf : (_func coeffs labels).length = n := by rw [_func, List.length_map, h2]
  rw [chi2terms, sum_zipWith_getD _ _ _ n (by rw [List.length_zip]; omega)
    (by rw [List.length_zip]; omega) ((0 : ℚ), (0 : ℚ)) ((0 : ℚ), (0 : ℚ))]
  apply Finset.sum_congr rfl
  intro p hp
  have hpn := Finset.mem_range.mp hp
  rw [getD_zip _ _ _ (by omega) (by omega), getD_zip _ _ _ (by omega) (by omega)]

/-! ## The claims -/

/-- C4: the label vector `_get_lvec` returns the labels unchanged
followed by every product `label_i * label_j` for `i ≤ j < nlabels` in
row-major upper-triangular order (the pair enumeration is exactly the
lexicographically sorted list of pairs `i ≤ j < n`), its length is
`nlabels + nlabels*(nlabels+1)/2`, and for two labels
`(a, b) ↦ (a, b, a*a, a*b, b*b)`. -/
theorem C4_label_vector :
    (∀ labels : List ℚ, (_get_lvec labels).length =
      labels.length + labels.length * (labels.length + 1) / 2) ∧
    (∀ labels : List ℚ, (_get_lvec labels).take labels.length = labels) ∧
    (∀ labels : List ℚ, _get_lvec labels =
      labels ++ (upperTriPairs labels.length).map
        (fun ij => labels.getD ij.1 0 * labels.getD ij.2 0)) ∧
    (∀ n i j : Nat, (i, j) ∈ upperTriPairs n ↔ i ≤ j ∧ j < n) ∧
    (∀ n : Nat, (upperTriPairs n).Pairwise pairLex) ∧
    (∀ a b : ℚ, _get_lvec [a, b] = [a, b, a * a, a * b, b * b]) := by
  refine ⟨?_, ?_, get_lvec_decomp, mem_upperTriPairs, upperTriPairs_sorted,
    fun a b => rfl⟩
  · intro labels
    rw [get_lvec_decomp, List.length_append, List.length_map, upperTriPairs_length]
  · intro labels
    rw [get_lvec_decomp]
    exact List.take_left ..

/-- C5: the effective standard deviation of lines 90-92 is the sentinel
`200.0` whenever `ivar == 0` (whatever the scatter), and
`sqrt(1/ivar + scatter^2)` otherwise; moreover, on physical inputs
(`ivar ≥ 0`) the per-pixel weight the driver builds (`sigSqPix`) is
exactly this standard deviation squared. -/
theorem C5_effective_sigma :
    (∀ scatter : ℝ, effSig 0 scatter = 200) ∧
    (∀ ivar scatter : ℝ, ivar ≠ 0 →
      effSig ivar scatter = Real.sqrt (1 / ivar + scatter ^ 2)) ∧
    (∀ iv s : ℚ, 0 ≤ iv → ((sigSqPix iv s : ℚ) : ℝ) =
      effSig (iv : ℝ) (s : ℝ) ^ 2) := by
  refine ⟨?_, ?_, ?_⟩
  · intro s
    rw [effSig, if_pos rfl]
    norm_num [LARGE]
  · intro iv s h
    rw [effSig, if_neg h]
  · intro iv s h
    by_cases hz : iv = 0
    · subst hz
      rw [sigSqPix, if_pos rfl, effSig, if_pos (by norm_num)]
      norm_num [LARGE]
    · have hz2 : ((iv : ℝ)) ≠ 0 := by exact_mod_cast hz
      rw [sigSqPix, if_neg hz, effSig, if_neg hz2, Real.sq_sqrt, Rat.cast_add]
      · push_cast
        ring
      · have hpos : (0 : ℝ) < (iv : ℝ) := by
          rcases lt_or_eq_of_le h with hlt | heq
          · exact_mod_cast hlt
          · exact absurd heq.symm hz
        positivity

/-- Witness for C5 at concrete pixels. -/
theorem C5_effective_sigma_witness :
    effSig 0 5 = 200 ∧
    ((1 : ℝ) ≠ 0 ∧ effSig 1 3 = Real.sqrt (1 / 1 + 3 ^ 2)) ∧
    (0 ≤ (4 : ℚ) ∧ ((sigSqPix 4 2 : ℚ) : ℝ) =
      effSig ((4 : ℚ) : ℝ) ((2 : ℚ) : ℝ) ^ 2) :=
  ⟨C5_effective_sigma.1 5,
    ⟨by norm_num, C5_effective_sigma.2.1 1 3 (by norm_num)⟩,
    ⟨by norm_num, C5_effective_sigma.2.2 4 2 (by norm_num)⟩⟩

/-- C10: a pixel whose observed inverse-variance is zero contributes
exactly zero to the star's chi-square, whatever the residual and the
scatter are at that pixel. -/
theorem C10_bad_pixel_zero_chi2 (coeffs : List (List ℚ))
    (flux_piv ivar scatters labels : List ℚ) (p : Nat)
    (hp1 : p < flux_piv.length) (hp2 : p < coeffs.length)
    (hp3 : p < ivar.length) (hp4 : p < scatters.length)
    (hzero : ivar[p] = 0) :
    (chi2terms coeffs flux_piv ivar scatters labels)[p]? = some 0 := by
  have hf : (_func coeffs labels).length = coeffs.length := List.length_map ..
  have hlen : p < (chi2terms coeffs flux_piv ivar scatters labels).length := by
    rw [chi2terms, List.length_zipWith, List.length_zip, List.length_zip, hf]
    omega
  rw [List.getElem?_eq_getElem hlen]
  congr 1
  simp only [chi2terms, List.getElem_zipWith, List.getElem_zip]
  rw [hzero]
  ring

/-- Witness for C10 on a concrete masked pixel. -/
theorem C10_bad_pixel_zero_chi2_witness :
    (chi2terms [[1, 1], [2, 2]] [5, 7] [1, 0] [3, 4] [9])[1]? = some 0 :=
  C10_bad_pixel_zero_chi2 [[1, 1], [2, 2]] [5, 7] [1, 0] [3, 4] [9] 1
    (by decide) (by decide) (by decide) (by decide) (by decide)

/-- C1: when the optimizer raises the convergence `RuntimeError`, the
guarded fit propagates no exception: it returns (`.ok`) labels of the
initial guess's shape that are `-9999.0` in every entry, and a square
`len(guess) x len(guess)` covariance matrix (the shape a successful fit
would have) that is `-9999.0` in every entry. -/
theorem C1_convergence_failure_sentinels (optimizer : Optimizer)
    (coeffs : List (List ℚ)) (flux_piv sigSq starting_guess : List ℚ)
    (h : optimizer coeffs flux_piv sigSq starting_guess = .runtimeError) :
    fitStar optimizer coeffs flux_piv sigSq starting_guess =
      .ok (sentinelLabels starting_guess, sentinelCovs starting_guess) ∧
    (sentinelLabels starting_guess).length = starting_guess.length ∧
    (∀ x ∈ sentinelLabels starting_guess, x = -9999) ∧
    (sentinelCovs starting_guess).length = starting_guess.length ∧
    (∀ row ∈ sentinelCovs starting_guess,
      row.length = starting_guess.length ∧ ∀ x ∈ row, x = -9999) := by
  refine ⟨by rw [fitStar, h], List.length_replicate .., ?_,
    List.length_replicate .., ?_⟩
  · intro x hx
    exact List.eq_of_mem_replicate hx
  · intro row hrow
    have hr := List.eq_of_mem_replicate hrow
    subst hr
    exact ⟨List.length_replicate .., fun x hx => List.eq_of_mem_replicate hx⟩

/-- Witness for C1: a two-label fit under an always-failing optimizer. -/
theorem C1_convergence_failure_sentinels_witness :
    fitStar failOpt [[1]] [1] [1] [0, 0] =
      .ok (sentinelLabels [0, 0], sentinelCovs [0, 0]) ∧
    (sentinelLabels [0, 0]).length = ([0, 0] : List ℚ).length ∧
    (∀ x ∈ sentinelLabels [0, 0], x = -9999) ∧
    (sentinelCovs [0, 0]).length = ([0, 0] : List ℚ).length ∧
    (∀ row ∈ sentinelCovs [0, 0],
      row.length = ([0, 0] : List ℚ).length ∧ ∀ x ∈ row, x = -9999) :=
  C1_convergence_failure_sentinels failOpt [[1]] [1] [1] [0, 0] rfl

/-- C3: whenever the per-star solve returns, its recorded chi-square is
the sum over all pixels of `residual^2 * ivar / (1 + ivar * scatter^2)`,
the residual being the pivot-relative flux minus the model prediction at
the labels the guarded fit produced - and this holds also when the fit
failed, in which case those labels are the `-9999` sentinels. -/
theorem C3_chi_square (optimizer : Optimizer) (coeffs_all : List (List ℚ))
    (scatters pivots starting_guess flux ivar : List ℚ) (r : StarResult)
    (hok : solveStar optimizer coeffs_all scatters pivots starting_guess flux ivar
      = .ok r)
    (hflux : flux.length = coeffs_all.length)
    (hiv : ivar.length = flux.length) (hsc : scatters.length = ivar.length) :
    ∃ labels covs,
      fitStar optimizer (coeffs_all.map List.tail)
        (List.zipWith (fun x y => x - y) flux (pivotCol coeffs_all))
        (List.zipWith sigSqPix ivar scatters) starting_guess = .ok (labels, covs) ∧
      (optimizer (coeffs_all.map List.tail)
        (List.zipWith (fun x y => x - y) flux (pivotCol coeffs_all))
        (List.zipWith sigSqPix ivar scatters) starting_guess = .runtimeError →
        labels = sentinelLabels starting_guess) ∧
      r.chisq = ∑ p in Finset.range coeffs_all.length,
        ((List.zipWith (fun x y => x - y) flux (pivotCol coeffs_all)).getD p 0 -
          (_func (coeffs_all.map List.tail) labels).getD p 0) ^ 2 * ivar.getD p 0 /
          (1 + ivar.getD p 0 * (scatters.getD p 0) ^ 2) := by
  have hns : npSub flux (pivotCol coeffs_all) =
      .ok (List.zipWith (fun x y => x - y) flux (pivotCol coeffs_all)) := by
    rw [npSub, if_pos]
    rw [pivotCol, List.length_map]
    exact hflux
  have hcs : computeSigSq flux ivar scatters =
      .ok (List.zipWith sigSqPix ivar scatters) := by
    rw [computeSigSq, if_pos ⟨hiv, hsc⟩]
  rw [solveStar, hns, hcs] at hok
  dsimp only at hok
  cases hfit : fitStar optimizer (coeffs_all.map List.tail)
      (List.zipWith (fun x y => x - y) flux (pivotCol coeffs_all))
      (List.zipWith sigSqPix ivar scatters) starting_guess with
  | error e => rw [hfit] at hok; exact absurd hok (by simp)
  | ok fitted =>
    obtain ⟨labels, covs⟩ := fitted
    rw [hfit] at hok
    dsimp only at hok
    refine ⟨labels, covs, rfl, ?_, ?_⟩
    · intro hrt
      rw [fitStar, hrt] at hfit
      have hinj := (Except.ok.injEq _ _).mp hfit
      exact (Prod.ext_iff.mp hinj).1.symm
    · cases hadd : npAdd labels pivots with
      | error e => rw [hadd] at hok; exact absurd hok (by simp)
      | ok stored =>
        rw [hadd] at hok
        dsimp only at hok
        have hr := ((Except.ok.injEq _ _).mp hok).symm
        subst hr
        have hzw : (List.zipWith (fun x y => x - y) flux
            (pivotCol coeffs_all)).length = coeffs_all.length := by
          rw [List.length_zipWith, pivotCol, List.length_map]
          omega
        exact chi2terms_sum _ _ _ _ _ _ hzw (List.length_map ..) (by omega) (by omega)

/-- Witness for C3: one pixel, one label, failing fit - the chi-square
is still recorded, computed from the sentinel labels. -/
theorem C3_chi_square_witness :
    ∃ labels covs,
      fitStar failOpt ([[1, 0, 0]].map List.tail)
        (List.zipWith (fun x y => x - y) [2] (pivotCol [[1, 0, 0]]))
        (List.zipWith sigSqPix [1] [0]) [0] = .ok (labels, covs) ∧
      (failOpt ([[1, 0, 0]].map List.tail)
        (List.zipWith (fun x y => x - y) [2] (pivotCol [[1, 0, 0]]))
        (List.zipWith sigSqPix [1] [0]) [0] = .runtimeError →
        labels = sentinelLabels [0]) ∧
      (StarResult.mk [-9998] [-9999] 1).chisq =
        ∑ p in Finset.range ([[1, 0, 0]] : List (List ℚ)).length,
          ((List.zipWith (fun x y => x - y) [2] (pivotCol [[1, 0, 0]])).getD p 0 -
            (_func (([[1, 0, 0]] : List (List ℚ)).map List.tail) labels).getD p 0) ^ 2 *
            ([1] : List ℚ).getD p 0 /
            (1 + ([1] : List ℚ).getD p 0 * (([0] : List ℚ).getD p 0) ^ 2) :=
  C3_chi_square failOpt [[1, 0, 0]] [0] [1] [0] [2] [1]
    (StarResult.mk [-9998] [-9999] 1)
    (by norm_num [solveStar, npSub, pivotCol, computeSigSq, sigSqPix, fitStar,
      failOpt, sentinelLabels, sentinelCovs, chi2terms, _func, _get_lvec, dot,
      npAdd, diagonal, LARGE, List.range_succ, List.range_zero])
    (by decide) (by decide) (by decide)

/-- C2 counterexample: one star whose fit fails, with pivot `1`.  The
final label table row is `-9998` (= `-9999 + pivot`), not literally
`-9999`: the sentinel is added to the pivot before storage (line 105),
so the claim's "literal -9999 entries" fails whenever a pivot is
nonzero. -/
theorem C2_counterexample :
    _infer_labels failOpt (CannonModel.mk [[1, 0, 0]] [0] [1])
        (Dataset.mk 1 [[2]] [[1]] [[7]]) [0] =
      .ok (Dataset.mk 1 [[2]] [[1]] [[-9998]], [[-9999]], [1]) ∧
    ((-9998 : ℚ) = -9999 → False) := by
  constructor
  · norm_num [_infer_labels, runLoop, solveStar, npSub, pivotCol, computeSigSq,
      sigSqPix, fitStar, failOpt, sentinelLabels, sentinelCovs, chi2terms,
      _func, _get_lvec, dot, npAdd, diagonal, LARGE, List.range_succ,
      List.range_zero]
  · intro h
    norm_num at h

/-- C2 (amended): in the final label table, a failed star's row holds
`-9999 + pivot` in each entry (literal `-9999` exactly when the pivot is
zero) and the returned covariance-diagonal row is all `-9999`; the label
table written back has one row per star and is independent of any
pre-existing label table (full overwrite). -/
theorem C2_sentinel_rows (optimizer : Optimizer) (model : CannonModel)
    (ds : Dataset) (starting_guess : List ℚ) (ds2 : Dataset)
    (errs : List (List ℚ)) (chis : List ℚ)
    (hok : _infer_labels optimizer model ds starting_guess = .ok (ds2, errs, chis))
    (hpiv : model.pivots.length = starting_guess.length) :
    (∀ old : List (List ℚ), _infer_labels optimizer model
      { ds with test_label_vals := old } starting_guess = .ok (ds2, errs, chis)) ∧
    ds2.test_label_vals.length = ds.test_flux.length ∧
    (∀ (jj : Nat) (flux ivar : List ℚ), ds.test_flux[jj]? = some flux →
      ds.test_ivar[jj]? = some ivar →
      flux.length = model.coeffs.length → ivar.length = flux.length →
      model.scatters.length = ivar.length →
      optimizer (model.coeffs.map List.tail)
        (List.zipWith (fun x y => x - y) flux (pivotCol model.coeffs))
        (List.zipWith sigSqPix ivar model.scatters) starting_guess = .runtimeError →
      ds2.test_label_vals[jj]? = some (List.zipWith (fun x y => x + y)
        (sentinelLabels starting_guess) model.pivots) ∧
      errs[jj]? = some (List.replicate starting_guess.length (-9999))) := by
  rw [_infer_labels] at hok
  cases hrun : runLoop optimizer model.coeffs model.scatters model.pivots
      starting_guess ds.test_flux ds.test_ivar with
  | error e => rw [hrun] at hok; simp at hok
  | ok rs =>
    rw [hrun] at hok
    dsimp only at hok
    obtain ⟨hds2, hrest⟩ := Prod.ext_iff.mp ((Except.ok.injEq _ _).mp hok)
    obtain ⟨herrs2, hchis2⟩ := Prod.ext_iff.mp hrest
    dsimp only at hds2 herrs2 hchis2
    obtain ⟨hlen, hget⟩ := runLoop_ok_get optimizer model.coeffs model.scatters
      model.pivots starting_guess ds.test_flux ds.test_ivar rs hrun
    refine ⟨?_, ?_, ?_⟩
    · intro old
      rw [_infer_labels]
      cases ds with
      | mk tr fl iv lv =>
        dsimp only at hrun hok ⊢
        rw [hrun]
        dsimp only
        rw [← hds2, ← herrs2, ← hchis2]
    · rw [← hds2]
      dsimp only
      rw [List.length_map]
      exact hlen
    · intro jj flux ivar hf hv hflux hiv hsc hrt
      obtain ⟨ivar2, r, hv2, hsolve, hr⟩ := hget jj flux hf
      obtain rfl : ivar2 = ivar := by
        rw [hv] at hv2
        exact ((Option.some.injEq _ _).mp hv2).symm
      rw [solveStar_runtimeError _ _ _ _ _ _ _ hflux hiv hsc hpiv hrt] at hsolve
      obtain rfl := (Except.ok.injEq _ _).mp hsolve
      constructor
      · rw [← hds2]
        dsimp only
        rw [List.getElem?_map, hr]
        rfl
      · rw [← herrs2, List.getElem?_map, hr]
        rfl

/-- Witness for C2's amended statement: one failed star, pivot `1` -
the stored row is `[-9998]`, the covariance-diagonal row `[-9999]`. -/
theorem C2_sentinel_rows_witness :
    (∀ old : List (List ℚ), _infer_labels failOpt
      (CannonModel.mk [[1, 0, 0]] [0] [1])
      { Dataset.mk 1 [[2]] [[1]] [[7]] with test_label_vals := old } [0] =
      .ok (Dataset.mk 1 [[2]] [[1]] [[-9998]], [[-9999]], [1])) ∧
    (Dataset.mk 1 [[2]] [[1]] [[-9998]]).test_label_vals.length =
      (Dataset.mk 1 [[2]] [[1]] [[7]]).test_flux.length ∧
    (∀ (jj : Nat) (flux ivar : List ℚ),
      (Dataset.mk 1 [[2]] [[1]] [[7]]).test_flux[jj]? = some flux →
      (Dataset.mk 1 [[2]] [[1]] [[7]]).test_ivar[jj]? = some ivar →
      flux.length = (CannonModel.mk [[1, 0, 0]] [0] [1]).coeffs.length →
      ivar.length = flux.length →
      (CannonModel.mk [[1, 0, 0]] [0] [1]).scatters.length = ivar.length →
      failOpt ((CannonModel.mk [[1, 0, 0]] [0] [1]).coeffs.map List.tail)
        (List.zipWith (fun x y => x - y) flux
          (pivotCol (CannonModel.mk [[1, 0, 0]] [0] [1]).coeffs))
        (List.zipWith sigSqPix ivar (CannonModel.mk [[1, 0, 0]] [0] [1]).scatters)
        [0] = .runtimeError →
      (Dataset.mk 1 [[2]] [[1]] [[-9998]]).test_label_vals[jj]? =
        some (List.zipWith (fun x y => x + y) (sentinelLabels [0])
          (CannonModel.mk [[1, 0, 0]] [0] [1]).pivots) ∧
      [[(-9999 : ℚ)]][jj]? = some (List.replicate ([0] : List ℚ).length (-9999))) :=
  C2_sentinel_rows failOpt (CannonModel.mk [[1, 0, 0]] [0] [1])
    (Dataset.mk 1 [[2]] [[1]] [[7]]) [0]
    (Dataset.mk 1 [[2]] [[1]] [[-9998]]) [[-9999]] [1]
    (by norm_num [_infer_labels, runLoop, solveStar, npSub, pivotCol,
      computeSigSq, sigSqPix, fitStar, failOpt, sentinelLabels, sentinelCovs,
      chi2terms, _func, _get_lvec, dot, npAdd, diagonal, LARGE,
      List.range_succ, List.range_zero])
    (by decide)

/-- C6: the per-star solve fits against the pivot-relative target
`flux - coeffs_all[:,0]`, hands the optimizer the coefficient matrix
with the offset column removed (`List.tail` of every row), and stores
the fitted labels with the model pivots added back. -/
theorem C6_pivot_handling (optimizer : Optimizer) (coeffs_all : List (List ℚ))
    (scatters pivots starting_guess flux ivar labels : List ℚ)
    (covs : List (List ℚ))
    (hflux : flux.length = coeffs_all.length) (hiv : ivar.length = flux.length)
    (hsc : scatters.length = ivar.length) (hlab : labels.length = pivots.length)
    (hopt : optimizer (coeffs_all.map List.tail)
      (List.zipWith (fun x y => x - y) flux (pivotCol coeffs_all))
      (List.zipWith sigSqPix ivar scatters) starting_guess
      = .success labels covs) :
    solveStar optimizer coeffs_all scatters pivots starting_guess flux ivar =
      .ok ⟨List.zipWith (fun x y => x + y) labels pivots, diagonal covs,
        (chi2terms (coeffs_all.map List.tail)
          (List.zipWith (fun x y => x - y) flux (pivotCol coeffs_all))
          ivar scatters labels).sum⟩ :=
  solveStar_success optimizer coeffs_all scatters pivots starting_guess
    flux ivar labels covs hflux hiv hsc hlab hopt

/-- Witness for C6: an immediately-converging optimizer on one pixel. -/
theorem C6_pivot_handling_witness :
    solveStar echoOpt [[1, 0, 0]] [0] [1] [0] [2] [1] =
      .ok ⟨List.zipWith (fun x y => x + y) [0] [1], diagonal [[0]],
        (chi2terms ([[1, 0, 0]].map List.tail)
          (List.zipWith (fun x y => x - y) [2] (pivotCol [[1, 0, 0]]))
          [1] [0] [0]).sum⟩ :=
  C6_pivot_handling echoOpt [[1, 0, 0]] [0] [1] [0] [2] [1] [0] [[0]]
    (by decide) (by decide) (by decide) (by decide) rfl

/-- C7 counterexample: a model whose pivot vector has the wrong length
(1 instead of `nlabels = 2`, violating the §3 invariant
`len(pivot) == nlabels`) is silently accepted - NumPy broadcasting makes
`labels + pivots` succeed - and the driver returns results instead of
raising.  So the driver does not fail fast on malformed global input. -/
theorem C7_counterexample :
    (CannonModel.mk [[1, 0, 0, 0, 0, 0]] [0] [5]).pivots.length ≠
      (Dataset.mk 2 [[2]] [[1]] []).tr_label_cols ∧
    _infer_labels echoOpt (CannonModel.mk [[1, 0, 0, 0, 0, 0]] [0] [5])
      (Dataset.mk 2 [[2]] [[1]] []) [0, 0] =
      .ok (Dataset.mk 2 [[2]] [[1]] [[5, 5]], [[0, 0]], [1]) := by
  refine ⟨by decide, ?_⟩
  norm_num [_infer_labels, runLoop, solveStar, npSub, pivotCol, computeSigSq,
    sigSqPix, fitStar, echoOpt, sentinelLabels, sentinelCovs, chi2terms,
    _func, _get_lvec, dot, npAdd, diagonal, LARGE, List.range_succ,
    List.range_zero, List.replicate_succ]

/-- C7 (amended): the driver performs no up-front shape validation -
a shape violation either surfaces as an exception when the offending
array is used inside the per-star loop, or is silently accepted when
NumPy broadcasting tolerates it (see the counterexample) - and, on
well-formed input, it never raises for a star's numerical
non-convergence: any optimizer that only converges or raises the
convergence `RuntimeError` yields a non-exceptional result. -/
theorem C7_no_raise_on_nonconvergence (optimizer : Optimizer)
    (model : CannonModel) (ds : Dataset) (starting_guess : List ℚ)
    (hlen : ds.test_ivar.length = ds.test_flux.length)
    (hf : ∀ flux ∈ ds.test_flux, flux.length = model.coeffs.length)
    (hi : ∀ ivar ∈ ds.test_ivar, ivar.length = model.coeffs.length)
    (hsc : model.scatters.length = model.coeffs.length)
    (hpiv : model.pivots.length = starting_guess.length)
    (hnoraise : ∀ c f s g msg, optimizer c f s g ≠ .otherError msg)
    (hlenopt : ∀ c f s g l cv, optimizer c f s g = .success l cv →
      l.length = g.length) :
    ∃ ds2 errs chis,
      _infer_labels optimizer model ds starting_guess = .ok (ds2, errs, chis) := by
  obtain ⟨rs, hrs⟩ := runLoop_ok_of_wellformed optimizer model.coeffs
    model.scatters model.pivots starting_guess ds.test_flux ds.test_ivar
    hlen hf hi hsc hpiv hnoraise hlenopt
  exact ⟨_, _, _, by rw [_infer_labels, hrs]⟩

/-- Witness for C7's amended statement: a dataset with one star whose
fit fails to converge still produces a result, not an exception. -/
theorem C7_no_raise_on_nonconvergence_witness :
    ∃ ds2 errs chis,
      _infer_labels failOpt (CannonModel.mk [[1, 0, 0]] [0] [1])
        (Dataset.mk 1 [[2]] [[1]] [[7]]) [0] = .ok (ds2, errs, chis) :=
  C7_no_raise_on_nonconvergence failOpt (CannonModel.mk [[1, 0, 0]] [0] [1])
    (Dataset.mk 1 [[2]] [[1]] [[7]]) [0] (by decide)
    (by intro flux hfl; fin_cases hfl; decide)
    (by intro ivar hiv; fin_cases hiv; decide)
    (by decide) (by decide)
    (by intro c f s g msg h; simp [failOpt] at h)
    (by intro c f s g l cv h; simp [failOpt] at h)

/-- C8: the driver's only effect on the dataset is replacing its
label-value table, once, with the matrix aggregated from the completed
loop - one row per star; every other field of the dataset is unchanged,
and the returned arrays are exactly the loop's aggregates.  (On the
error path no new dataset is produced at all: the setter runs only
after the loop completes.) -/
theorem C8_single_dataset_write (optimizer : Optimizer) (model : CannonModel)
    (ds : Dataset) (starting_guess : List ℚ) (ds2 : Dataset)
    (errs : List (List ℚ)) (chis : List ℚ)
    (hok : _infer_labels optimizer model ds starting_guess
      = .ok (ds2, errs, chis)) :
    ds2.tr_label_cols = ds.tr_label_cols ∧
    ds2.test_flux = ds.test_flux ∧
    ds2.test_ivar = ds.test_ivar ∧
    ∃ rs : List StarResult,
      runLoop optimizer model.coeffs model.scatters model.pivots starting_guess
        ds.test_flux ds.test_ivar = .ok rs ∧
      ds2.test_label_vals = rs.map StarResult.labels ∧
      rs.length = ds.test_flux.length ∧
      errs = rs.map StarResult.errs ∧
      chis = rs.map StarResult.chisq := by
  rw [_infer_labels] at hok
  cases hrun : runLoop optimizer model.coeffs model.scatters model.pivots
      starting_guess ds.test_flux ds.test_ivar with
  | error e => rw [hrun] at hok; simp at hok
  | ok rs =>
    rw [hrun] at hok
    dsimp only at hok
    obtain ⟨hds2, hrest⟩ := Prod.ext_iff.mp ((Except.ok.injEq _ _).mp hok)
    obtain ⟨herrs2, hchis2⟩ := Prod.ext_iff.mp hrest
    dsimp only at hds2 herrs2 hchis2
    obtain ⟨hlen, _⟩ := runLoop_ok_get optimizer model.coeffs model.scatters
      model.pivots starting_guess ds.test_flux ds.test_ivar rs hrun
    refine ⟨by rw [← hds2], by rw [← hds2], by rw [← hds2],
      rs, rfl, by rw [← hds2], hlen, herrs2.symm, hchis2.symm⟩

/-- Witness for C8 on a one-star dataset with a failing fit. -/
theorem C8_single_dataset_write_witness :
    (Dataset.mk 1 [[2]] [[1]] [[-9998]]).tr_label_cols =
      (Dataset.mk 1 [[2]] [[1]] [[7]]).tr_label_cols ∧
    (Dataset.mk 1 [[2]] [[1]] [[-9998]]).test_flux =
      (Dataset.mk 1 [[2]] [[1]] [[7]]).test_flux ∧
    (Dataset.mk 1 [[2]] [[1]] [[-9998]]).test_ivar =
      (Dataset.mk 1 [[2]] [[1]] [[7]]).test_ivar ∧
    ∃ rs : List StarResult,
      runLoop failOpt (CannonModel.mk [[1, 0, 0]] [0] [1]).coeffs
        (CannonModel.mk [[1, 0, 0]] [0] [1]).scatters
        (CannonModel.mk [[1, 0, 0]] [0] [1]).pivots [0]
        (Dataset.mk 1 [[2]] [[1]] [[7]]).test_flux
        (Dataset.mk 1 [[2]] [[1]] [[7]]).test_ivar = .ok rs ∧
      (Dataset.mk 1 [[2]] [[1]] [[-9998]]).test_label_vals =
        rs.map StarResult.labels ∧
      rs.length = (Dataset.mk 1 [[2]] [[1]] [[7]]).test_flux.length ∧
      [[(-9999 : ℚ)]] = rs.map StarResult.errs ∧
      [(1 : ℚ)] = rs.map StarResult.chisq :=
  C8_single_dataset_write failOpt (CannonModel.mk [[1, 0, 0]] [0] [1])
    (Dataset.mk 1 [[2]] [[1]] [[7]]) [0]
    (Dataset.mk 1 [[2]] [[1]] [[-9998]]) [[-9999]] [1]
    (by norm_num [_infer_labels, runLoop, solveStar, npSub, pivotCol,
      computeSigSq, sigSqPix, fitStar, failOpt, sentinelLabels, sentinelCovs,
      chi2terms, _func, _get_lvec, dot, npAdd, diagonal, LARGE,
      List.range_succ, List.range_zero])

/-- C9: only the convergence `RuntimeError` is converted to the `-9999`
sentinel.  If the optimizer raises any other exception for some star
(all earlier stars having been processed), the exception propagates out
of the driver, and no mutated dataset is produced - the label table is
untouched because the setter only runs after a completed loop. -/
theorem C9_other_exceptions_propagate (optimizer : Optimizer)
    (model : CannonModel) (ds : Dataset) (starting_guess : List ℚ)
    (jj : Nat) (flux ivar : List ℚ) (msg : String)
    (hfj : ds.test_flux[jj]? = some flux)
    (hvj : ds.test_ivar[jj]? = some ivar)
    (hprev : ∀ k : Nat, k < jj → ∃ f i r, ds.test_flux[k]? = some f ∧
      ds.test_ivar[k]? = some i ∧
      solveStar optimizer model.coeffs model.scatters model.pivots
        starting_guess f i = .ok r)
    (hflux : flux.length = model.coeffs.length)
    (hiv : ivar.length = flux.length)
    (hsc : model.scatters.length = ivar.length)
    (hraise : optimizer (model.coeffs.map List.tail)
      (List.zipWith (fun x y => x - y) flux (pivotCol model.coeffs))
      (List.zipWith sigSqPix ivar model.scatters) starting_guess
      = .otherError msg) :
    _infer_labels optimizer model ds starting_guess = .error msg ∧
    ∀ ds2 errs chis,
      _infer_labels optimizer model ds starting_guess ≠ .ok (ds2, errs, chis) := by
  have hfail : solveStar optimizer model.coeffs model.scatters model.pivots
      starting_guess flux ivar = .error msg :=
    solveStar_otherError optimizer model.coeffs model.scatters model.pivots
      starting_guess flux ivar msg hflux hiv hsc hraise
  have hloop := runLoop_error_of optimizer model.coeffs model.scatters
    model.pivots starting_guess jj ds.test_flux ds.test_ivar flux ivar msg
    hfj hvj hprev hfail
  refine ⟨by rw [_infer_labels, hloop], ?_⟩
  intro ds2 errs chis hcontra
  rw [_infer_labels, hloop] at hcontra
  simp at hcontra

/-- Witness for C9: two stars; the first converges, the second hits a
non-`RuntimeError` exception, which escapes the driver. -/
theorem C9_other_exceptions_propagate_witness :
    _infer_labels mixedOpt (CannonModel.mk [[1, 0, 0]] [0] [1])
      (Dataset.mk 1 [[2], [3]] [[1], [1]] []) [0] = .error "boom" ∧
    ∀ ds2 errs chis,
      _infer_labels mixedOpt (CannonModel.mk [[1, 0, 0]] [0] [1])
        (Dataset.mk 1 [[2], [3]] [[1], [1]] []) [0] ≠ .ok (ds2, errs, chis) :=
  C9_other_exceptions_propagate mixedOpt (CannonModel.mk [[1, 0, 0]] [0] [1])
    (Dataset.mk 1 [[2], [3]] [[1], [1]] []) [0] 1 [3] [1] "boom"
    rfl rfl
    (by
      intro k hk
      obtain rfl : k = 0 := by omega
      refine ⟨[2], [1], StarResult.mk [1] [0] 1, rfl, rfl, ?_⟩
      norm_num [solveStar, npSub, pivotCol, computeSigSq, sigSqPix, fitStar,
        mixedOpt, sentinelLabels, sentinelCovs, chi2terms, _func, _get_lvec,
        dot, npAdd, diagonal, LARGE, List.range_succ, List.range_zero,
        List.replicate_succ])
    (by decide) (by decide) (by decide)
    (by norm_num [mixedOpt, pivotCol, sigSqPix, LARGE])

end TheCannon
